import Mathlib

/-!
Shallow embedding of the go-bru package (a parser and re-serializer for
the "Bru" configuration-file format) and proofs about its behaviour.

Bytes are modeled as natural numbers (Go `byte` values, 0..255), byte
strings as `List Nat`.  The Go scanner stores its current state as a
function pointer `step`; the embedding represents that pointer by the
inductive `ScanState` naming the function currently assigned, and a
dispatcher `stepFn` that applies the corresponding transition.  Machine
integers never overflow in this code (they only count bytes of an
in-memory buffer), so `Nat` is used throughout.
-/

set_option maxRecDepth 100000
set_option maxHeartbeats 1000000

namespace GoBru

/-- Convert an ASCII Lean string to the byte list it denotes. -/
def bstr (s : String) : List Nat := s.data.map Char.toNat

/-- Convert a byte list back to a string (used in scanner error messages,
faithful for the ASCII data this parser handles). -/
def natsToString (l : List Nat) : String := String.mk (l.map Char.ofNat)

/-- A single-quote character as a string (avoids quote-escape noise). -/
def squote : String := String.singleton (Char.ofNat 39)

/-- A double-quote character as a string. -/
def dquote : String := String.singleton (Char.ofNat 34)

def hexDigit (n : Nat) : Char :=
  if n < 10 then Char.ofNat (48 + n) else Char.ofNat (87 + n)

def hex2 (c : Nat) : String := String.mk [hexDigit (c / 16 % 16), hexDigit (c % 16)]

def hex4 (c : Nat) : String :=
  String.mk [hexDigit (c / 4096 % 16), hexDigit (c / 256 % 16),
             hexDigit (c / 16 % 16), hexDigit (c % 16)]

/-- Inner text of Go `strconv.Quote(string(c))` with the surrounding double
quotes stripped, for a single byte `c` (the byte becomes one code point). -/
def quoteCharInner (c : Nat) : String :=
  if c = 7 then "\\a" else if c = 8 then "\\b" else if c = 12 then "\\f"
  else if c = 10 then "\\n" else if c = 13 then "\\r" else if c = 9 then "\\t"
  else if c = 11 then "\\v" else if c = 92 then "\\\\"
  else if 32 ≤ c ∧ c ≤ 126 then String.singleton (Char.ofNat c)
  else if c < 32 ∨ c = 127 then "\\x" ++ hex2 c
  else if 161 ≤ c ∧ c ≤ 255 ∧ c ≠ 173 then String.singleton (Char.ofNat c)
  else "\\u" ++ hex4 c

/-- `quoteChar` from scan.go: formats `c` as a quoted character literal. -/
def quoteChar (c : Nat) : String :=
  if c = 39 then squote ++ "\\" ++ squote ++ squote
  else if c = 34 then squote ++ dquote ++ squote
  else squote ++ quoteCharInner c ++ squote

/-! ## Scan opcodes (the `scan*` constants, in `iota` order) -/

def scanContinue : Nat := 0
def scanSkipSpace : Nat := 1
def scanBeginTag : Nat := 2
def scanEndTag : Nat := 3
def scanBeginArray : Nat := 4
def scanBeginText : Nat := 5
def scanBeginDictionary : Nat := 6
def scanEndBlock : Nat := 7
def scanEndArray : Nat := 8
def scanArrayValue : Nat := 9
def scanDictionaryKey : Nat := 10
def scanDictionaryValue : Nat := 11
def scanTextLine : Nat := 12
def scanEnd : Nat := 13
def scanError : Nat := 14

/-! ## Parse-stack states (the `parse*` constants, in `iota` order) -/

def parseArrayValue : Nat := 0
def parseDictionaryKey : Nat := 1
def parseDictionaryValue : Nat := 2
def parseTextValue : Nat := 3

/-! ## Block-type constants -/

def dictionaryBlock : Nat := 0
def textBlock : Nat := 1
def arrayBlock : Nat := 2

/-- `tags`: all allowed bru tag names, in source order. -/
def tags : List (List Nat) :=
  [bstr "meta", bstr "vars:secret", bstr "body", bstr "tests", bstr "get",
   bstr "post", bstr "put", bstr "delete", bstr "options", bstr "trace",
   bstr "connect", bstr "head", bstr "query", bstr "headers", bstr "body:text",
   bstr "body:xml", bstr "body:form-urlencoded", bstr "body:multipart-form",
   bstr "body:graphql", bstr "body:graphql:vars", bstr "script:pre-request",
   bstr "script:post-response", bstr "body:test", bstr "body:json",
   bstr "assert", bstr "vars"]

/-- `blockTypes`: the variant kind of each tag, aligned with `tags`. -/
def blockTypes : List Nat :=
  [dictionaryBlock, arrayBlock, textBlock, textBlock, dictionaryBlock,
   dictionaryBlock, dictionaryBlock, dictionaryBlock, dictionaryBlock,
   dictionaryBlock, dictionaryBlock, dictionaryBlock, dictionaryBlock,
   dictionaryBlock, textBlock, textBlock, dictionaryBlock, dictionaryBlock,
   textBlock, textBlock, textBlock, textBlock, textBlock, textBlock,
   dictionaryBlock, dictionaryBlock]

/-- Association of each tag with its block type, mirroring the Go loop
`for i, t := range tags { ... blockTypes[i] ... }`. -/
def tagTable : List (List Nat × Nat) := tags.zip blockTypes

/-- The maximum nesting depth (`maxNestingDepth = 1`). -/
def maxNestingDepth : Nat := 1

/-- Names for the scanner step functions that are ever assigned to `s.step`
(plus the error state).  The dead `stateBeginValueOrEmpty` is never
assigned in the source and is omitted. -/
inductive ScanState
  | beginBlockLine
  | readingTag
  | waitingForOpenBlock
  | openBlock
  | endValue
  | newDictionaryPair
  | newArrayValue
  | newTextLine
  | inText
  | inKey
  | beginDictionaryValue
  | inValue
  | inStringEsc
  | inStringEscU
  | inStringEscU1
  | inStringEscU12
  | inStringEscU123
  | errorState
deriving DecidableEq, Repr

/-- `SyntaxError`: message plus cumulative byte offset. -/
structure SyntaxError where
  msg : String
  offset : Nat
deriving DecidableEq, Repr

/-- The scanner state (`scanner` struct). -/
structure Scanner where
  step : ScanState
  endBlock : Bool
  parseState : List Nat
  err : Option SyntaxError
  bytes : Nat
  tagName : List Nat
deriving DecidableEq, Repr

def isSpace (c : Nat) : Bool := c = 32 || c = 9 || c = 13 || c = 10

/-- `(s *scanner) error`: record an error and switch to the error state. -/
def Scanner.mkError (s : Scanner) (c : Nat) (context : String) : Scanner × Nat :=
  ({ s with step := .errorState,
            err := some ⟨"invalid character " ++ quoteChar c ++ " " ++ context, s.bytes⟩ },
   scanError)

/-- Models a Go runtime panic from indexing an empty `parseState`
(`s.parseState[n-1]` with `n = 0`).  This situation is unreachable from a
reset scanner; the embedding maps it into the error state. -/
def Scanner.panicState (s : Scanner) : Scanner × Nat :=
  ({ s with step := .errorState,
            err := some ⟨"panic: runtime error: index out of range", s.bytes⟩ },
   scanError)

/-- `pushParseState`: push a parse state, failing if depth exceeds 1.
The caller has already assigned `s.step`; on overflow `mkError`
overwrites it with the error state, as in the source. -/
def Scanner.pushParseState (s : Scanner) (c : Nat) (newParseState successState : Nat) :
    Scanner × Nat :=
  if (s.parseState ++ [newParseState]).length ≤ maxNestingDepth then
    ({ s with parseState := s.parseState ++ [newParseState] }, successState)
  else
    ({ s with parseState := s.parseState ++ [newParseState] }).mkError c "exceeded max depth"

/-- `popParseState`: pop the last parse state, set `endBlock`, return to
the begin-block-line state.  (With an empty stack Go would panic; here
`dropLast` leaves the stack empty — that case is unreachable because this
is only called from states entered with a nonempty stack.) -/
def Scanner.popParseState (s : Scanner) : Scanner :=
  { s with parseState := s.parseState.dropLast, endBlock := true,
           step := .beginBlockLine }

/-- `checkTag`: validate the accumulated tag name and push the parse state
selected by the tag table. -/
def Scanner.checkTag (s : Scanner) (c : Nat) : Scanner × Nat :=
  match List.lookup s.tagName tagTable with
  | some bt =>
      if bt = dictionaryBlock then
        ({ s with tagName := [], step := .waitingForOpenBlock
         }).pushParseState c parseDictionaryKey scanEndTag
      else if bt = arrayBlock then
        ({ s with tagName := [], step := .waitingForOpenBlock
         }).pushParseState c parseArrayValue scanEndTag
      else if bt = textBlock then
        ({ s with tagName := [], step := .waitingForOpenBlock
         }).pushParseState c parseTextValue scanEndTag
      else
        ({ s with tagName := [] }).mkError c
          ("invalid tag name: " ++ natsToString s.tagName)
  | none =>
      ({ s with tagName := [] }).mkError c
        ("invalid tag name: " ++ natsToString s.tagName)

/-- `stateError`: all further bytes report `scanError`. -/
def stateErrorFn (s : Scanner) (_c : Nat) : Scanner × Nat := (s, scanError)

/-- `stateEndValue`: the state after completing a value. -/
def stateEndValue (s : Scanner) (c : Nat) : Scanner × Nat :=
  match s.parseState.getLast? with
  | none => s.panicState
  | some ps =>
    if ps = parseTextValue then
      if c = 10 then ({ s with step := .newTextLine }, scanTextLine)
      else if c = 125 then (s.popParseState, scanEndBlock)
      else s.mkError c "after text line"
    else if ps = parseDictionaryKey then
      if isSpace c then ({ s with step := .endValue }, scanSkipSpace)
      else if c = 58 then
        ({ s with parseState := s.parseState.dropLast ++ [parseDictionaryValue],
                  step := .beginDictionaryValue }, scanDictionaryValue)
      else s.mkError c "after dictionary key "
    else if ps = parseDictionaryValue then
      if c = 44 || c = 10 then
        ({ s with parseState := s.parseState.dropLast ++ [parseDictionaryKey],
                  step := .newDictionaryPair }, scanDictionaryKey)
      else if c = 125 then (s.popParseState, scanEndBlock)
      else s.mkError c "after dictionary key:value pair"
    else if ps = parseArrayValue then
      if isSpace c then ({ s with step := .endValue }, scanSkipSpace)
      else if c = 44 then ({ s with step := .newArrayValue }, scanArrayValue)
      else if c = 93 then (s.popParseState, scanEndArray)
      else s.mkError c "after array element"
    else s.mkError c ""

/-- `stateInText`: reading a text block line. -/
def stateInText (s : Scanner) (c : Nat) : Scanner × Nat :=
  if c = 10 then stateEndValue s c else (s, scanContinue)

/-- `stateInKey`: reading a key in a dictionary block line. -/
def stateInKey (s : Scanner) (c : Nat) : Scanner × Nat :=
  if c = 58 then stateEndValue s c
  else if c = 92 then ({ s with step := .inStringEsc }, scanContinue)
  else if c < 32 then s.mkError c "in key"
  else (s, scanContinue)

/-- `stateInValue`: reading a value in a dictionary or array block line. -/
def stateInValue (s : Scanner) (c : Nat) : Scanner × Nat :=
  if c = 92 then ({ s with step := .inStringEsc }, scanContinue)
  else if c = 10 then stateEndValue s c
  else if c < 32 then s.mkError c "in value literal"
  else (s, scanContinue)

/-- `stateBeginDictionaryValue`: just after the key's `:`. -/
def stateBeginDictionaryValue (s : Scanner) (c : Nat) : Scanner × Nat :=
  if c = 10 then stateEndValue s c
  else if isSpace c then (s, scanSkipSpace)
  else stateInValue { s with step := .inValue } c

/-- `stateNewDictionaryPair`: start of a new dictionary block line. -/
def stateNewDictionaryPair (s : Scanner) (c : Nat) : Scanner × Nat :=
  if isSpace c then (s, scanSkipSpace)
  else if c = 125 then (s.popParseState, scanEndBlock)
  else stateInKey { s with step := .inKey } c

/-- `stateNewArrayValue`: start of a new array block line. -/
def stateNewArrayValue (s : Scanner) (c : Nat) : Scanner × Nat :=
  if isSpace c then (s, scanSkipSpace)
  else if c = 93 then (s.popParseState, scanEndBlock)
  else stateInValue { s with step := .inValue } c

/-- `stateNewTextLine`: start of a new text block line. -/
def stateNewTextLine (s : Scanner) (c : Nat) : Scanner × Nat :=
  if c = 125 then (s.popParseState, scanEndBlock)
  else ({ s with step := .inText }, scanTextLine)

/-- `stateOpenBlock`: just after the opening `{` or `[`. -/
def stateOpenBlock (s : Scanner) (c : Nat) : Scanner × Nat :=
  match s.parseState.getLast? with
  | none => s.panicState
  | some ps =>
    if ps = parseDictionaryKey then
      if isSpace c then (s, scanSkipSpace) else stateNewDictionaryPair s c
    else if ps = parseArrayValue then
      if isSpace c then (s, scanSkipSpace) else stateNewArrayValue s c
    else if ps = parseTextValue then
      ({ s with step := .newTextLine }, scanSkipSpace)
    else s.mkError c "no state for block"

/-- `stateWaitingForOpenBlock`: after the tag, waiting for `{` or `[`. -/
def stateWaitingForOpenBlock (s : Scanner) (c : Nat) : Scanner × Nat :=
  if isSpace c then (s, scanSkipSpace)
  else
    match s.parseState.getLast? with
    | none => s.panicState
    | some ps =>
      if ps = parseDictionaryKey then
        if c = 123 then ({ s with step := .openBlock }, scanBeginDictionary)
        else s.mkError c "unexpected char after block name"
      else if ps = parseTextValue then
        if c = 123 then ({ s with step := .openBlock }, scanBeginText)
        else s.mkError c "unexpected char after block name"
      else if ps = parseArrayValue then
        if c = 91 then ({ s with step := .openBlock }, scanBeginArray)
        else s.mkError c "unexpected char after block name"
      else s.mkError c "unexpected char after block name"

/-- `stateReadingTag`: accumulating a tag name. -/
def stateReadingTag (s : Scanner) (c : Nat) : Scanner × Nat :=
  if isSpace c then s.checkTag c
  else ({ s with tagName := s.tagName ++ [c] }, scanContinue)

/-- `stateBeginBlockLine`: trying to read a new block. -/
def stateBeginBlockLine (s : Scanner) (c : Nat) : Scanner × Nat :=
  if isSpace c then (s, scanSkipSpace)
  else if 96 < c ∧ c < 123 then
    ({ s with tagName := [c], endBlock := false, step := .readingTag }, scanBeginTag)
  else (s, scanEnd)

/-- `stateInStringEsc` and the four `\uXXXX` sub-states. -/
def isHexByte (c : Nat) : Bool :=
  (48 ≤ c && c ≤ 57) || (97 ≤ c && c ≤ 102) || (65 ≤ c && c ≤ 70)

def stateInStringEscU123 (s : Scanner) (c : Nat) : Scanner × Nat :=
  if isHexByte c then ({ s with step := .inValue }, scanContinue)
  else s.mkError c "in \\u hexadecimal character escape"

def stateInStringEscU12 (s : Scanner) (c : Nat) : Scanner × Nat :=
  if isHexByte c then ({ s with step := .inStringEscU123 }, scanContinue)
  else s.mkError c "in \\u hexadecimal character escape"

def stateInStringEscU1 (s : Scanner) (c : Nat) : Scanner × Nat :=
  if isHexByte c then ({ s with step := .inStringEscU12 }, scanContinue)
  else s.mkError c "in \\u hexadecimal character escape"

def stateInStringEscU (s : Scanner) (c : Nat) : Scanner × Nat :=
  if isHexByte c then ({ s with step := .inStringEscU1 }, scanContinue)
  else s.mkError c "in \\u hexadecimal character escape"

def stateInStringEsc (s : Scanner) (c : Nat) : Scanner × Nat :=
  if c = 98 || c = 102 || c = 110 || c = 114 || c = 116 || c = 92 || c = 47 || c = 34 then
    ({ s with step := .inValue }, scanContinue)
  else if c = 117 then ({ s with step := .inStringEscU }, scanContinue)
  else s.mkError c "in string escape code"

/-- The dispatcher for `s.step(s, c)`. -/
def stepFn (s : Scanner) (c : Nat) : Scanner × Nat :=
  match s.step with
  | .beginBlockLine => stateBeginBlockLine s c
  | .readingTag => stateReadingTag s c
  | .waitingForOpenBlock => stateWaitingForOpenBlock s c
  | .openBlock => stateOpenBlock s c
  | .endValue => stateEndValue s c
  | .newDictionaryPair => stateNewDictionaryPair s c
  | .newArrayValue => stateNewArrayValue s c
  | .newTextLine => stateNewTextLine s c
  | .inText => stateInText s c
  | .inKey => stateInKey s c
  | .beginDictionaryValue => stateBeginDictionaryValue s c
  | .inValue => stateInValue s c
  | .inStringEsc => stateInStringEsc s c
  | .inStringEscU => stateInStringEscU s c
  | .inStringEscU1 => stateInStringEscU1 s c
  | .inStringEscU12 => stateInStringEscU12 s c
  | .inStringEscU123 => stateInStringEscU123 s c
  | .errorState => stateErrorFn s c

/-- `reset`: prepare the scanner for use (`bytes` deliberately preserved). -/
def Scanner.reset (s : Scanner) : Scanner :=
  { s with step := .beginBlockLine, parseState := [], err := none,
           endBlock := false, tagName := [] }

/-- A zero-valued scanner (`&scanner{}`). -/
def zeroScanner : Scanner := ⟨.beginBlockLine, false, [], none, 0, []⟩

/-- `eof`: tell the scanner the input has ended.  Feeds one synthetic
space byte to flush in-flight state. -/
def Scanner.eof (s : Scanner) : Scanner × Nat :=
  if s.err.isSome then (s, scanError)
  else if s.endBlock then (s, scanEnd)
  else if (stepFn s 32).1.endBlock then ((stepFn s 32).1, scanEnd)
  else if (stepFn s 32).1.err.isSome then ((stepFn s 32).1, scanError)
  else
    ({ (stepFn s 32).1 with
        err := some ⟨"unexpected end of Bru input", (stepFn s 32).1.bytes⟩ },
     scanError)

/-- The byte-consuming loop of `checkValid`, returning the final scanner
and the error, if any. -/
def checkValidAux (s : Scanner) : List Nat → Scanner × Option SyntaxError
  | [] =>
      let (s1, op) := s.eof
      (s1, if op = scanError then s1.err else none)
  | c :: rest =>
      let s1 := { s with bytes := s.bytes + 1 }
      let (s2, op) := stepFn s1 c
      if op = scanError then (s2, s2.err) else checkValidAux s2 rest

/-- `checkValid`: verify that `data` is valid Bru-encoded data. -/
def checkValid (data : List Nat) (s : Scanner) : Option SyntaxError :=
  (checkValidAux s.reset data).2

/-! ## Block model (structs.go) -/

/-- `DictionaryElement`. -/
structure DictionaryElement where
  key : List Nat
  value : List Nat
deriving DecidableEq, Repr

/-- The closed set of `ContentBlock` implementations.  `dict`, `text` and
`arr` are the three structs of structs.go; `foreign` stands for a value of
some other dynamic type implementing the interface (its `GetName`/`GetType`
results are its fields); `nilBlock` is the nil interface value, which the
decoder's unreachable fall-through path can append. -/
inductive ContentBlock
  | dict (name ty : List Nat) (content : List DictionaryElement)
  | text (name ty : List Nat) (content : List Nat)
  | arr (name ty : List Nat) (content : List (List Nat))
  | foreign (name ty : List Nat)
  | nilBlock
deriving DecidableEq, Repr

/-- `GetName`; `none` models the panic of calling a method on the nil
interface value. -/
def ContentBlock.getName : ContentBlock → Option (List Nat)
  | .dict n _ _ => some n
  | .text n _ _ => some n
  | .arr n _ _ => some n
  | .foreign n _ => some n
  | .nilBlock => none

/-- `GetType`. -/
def ContentBlock.getType : ContentBlock → Option (List Nat)
  | .dict _ t _ => some t
  | .text _ t _ => some t
  | .arr _ t _ => some t
  | .foreign _ t => some t
  | .nilBlock => none

/-- The `any` argument of `SetContent`. -/
inductive ContentValue
  | dictC (l : List DictionaryElement)
  | strC (s : List Nat)
  | arrC (l : List (List Nat))
deriving DecidableEq, Repr

/-- `SetContent` with its runtime type check.  (Calling it on `foreign` or
`nilBlock` never happens in this package; modeled as the type-mismatch
error and respectively a panic-free error.) -/
def setContent : ContentBlock → ContentValue → Except String ContentBlock
  | .dict n t _, .dictC l => .ok (.dict n t l)
  | .text n t _, .strC v => .ok (.text n t v)
  | .arr n t _, .arrC l => .ok (.arr n t l)
  | _, _ => .error "wrong type to set for dictionary"

instance : DecidableEq (Except String ContentBlock) := fun a b =>
  match a, b with
  | .ok x, .ok y =>
      if h : x = y then isTrue (by rw [h])
      else isFalse (by intro hc; cases hc; exact h rfl)
  | .error x, .error y =>
      if h : x = y then isTrue (by rw [h])
      else isFalse (by intro hc; cases hc; exact h rfl)
  | .ok _, .error _ => isFalse (by intro h; cases h)
  | .error _, .ok _ => isFalse (by intro h; cases h)

/-- Variant kind of a block, for relating decode output to the tag table. -/
def variantOf : ContentBlock → Nat
  | .dict .. => dictionaryBlock
  | .text .. => textBlock
  | .arr .. => arrayBlock
  | .foreign .. => 3
  | .nilBlock => 4

/-- `strings.Cut(tag, ":")` — the part before the first `:` and the part
after it (empty when there is no colon). -/
def cutColon : List Nat → List Nat × List Nat
  | [] => ([], [])
  | c :: rest =>
      if c = 58 then ([], rest)
      else
        let (a, b) := cutColon rest
        (c :: a, b)

/-- `getBlockForTag`: build the (empty-content) block for a tag. -/
def getBlockForTag (tag : List Nat) : Except String ContentBlock :=
  match List.lookup tag tagTable with
  | some bt =>
      let nt := cutColon tag
      if bt = dictionaryBlock then .ok (.dict nt.1 nt.2 [])
      else if bt = textBlock then .ok (.text nt.1 nt.2 [])
      else if bt = arrayBlock then .ok (.arr nt.1 nt.2 [])
      else .error ("could not find block for tag " ++ squote ++ natsToString tag ++ squote)
  | none => .error ("could not find block for tag " ++ squote ++ natsToString tag ++ squote)

/-! ## Decoder (decode.go) -/

/-- `decodeState`. -/
structure DecodeState where
  data : List Nat
  off : Nat
  opcode : Nat
  scan : Scanner
deriving DecidableEq, Repr

/-- `readIndex`: position of the last byte read. -/
def DecodeState.readIndex (d : DecodeState) : Nat := d.off - 1

/-- Go slice `data[start:stop]`. -/
def sliceData (data : List Nat) (start stop : Nat) : List Nat :=
  (data.drop start).take (stop - start)

/-- `scanNext`: process the byte at `d.data[d.off]`, or signal EOF. -/
def DecodeState.scanNext (d : DecodeState) : DecodeState :=
  match d.data.drop d.off with
  | c :: _ =>
      let r := stepFn d.scan c
      { d with scan := r.1, opcode := r.2, off := d.off + 1 }
  | [] =>
      let r := d.scan.eof
      { d with scan := r.1, opcode := r.2, off := d.data.length + 1 }

/-- The loop of `scanWhile`, recursing structurally on the unread suffix.
Returns (scanner, opcode, new offset). -/
def scanWhileAux (s : Scanner) (op i : Nat) (rest : List Nat) (total : Nat) :
    Scanner × Nat × Nat :=
  match rest with
  | [] =>
      let r := s.eof
      (r.1, r.2, total + 1)
  | c :: rs =>
      let r := stepFn s c
      if r.2 ≠ op then (r.1, r.2, i + 1)
      else scanWhileAux r.1 op (i + 1) rs total

/-- `scanWhile`: process bytes until a scan code other than `op` arrives. -/
def DecodeState.scanWhile (d : DecodeState) (op : Nat) : DecodeState :=
  let r := scanWhileAux d.scan op d.off (d.data.drop d.off) d.data.length
  { d with scan := r.1, opcode := r.2.1, off := r.2.2 }

/-- Result of running a Go function that may return an error, panic at
runtime, or (in the embedding) exhaust its loop fuel, which models a
non-terminating execution. -/
inductive Outcome (α : Type)
  | ok (a : α)
  | err (msg : String)
  | panic (msg : String)
  | diverge
deriving DecidableEq, Repr

/-- A `for { if d.opcode ∈ targets { break }; d.scanNext() }` loop.
`none` means the loop never exits (fuel exhausted). -/
def loopUntilOps (fuel : Nat) (targets : List Nat) (d : DecodeState) :
    Option DecodeState :=
  match fuel with
  | 0 => none
  | fuel + 1 =>
      if d.opcode ∈ targets then some d
      else loopUntilOps fuel targets d.scanNext

/-- The dictionary-body loop of `block`. -/
def dictLoop (fuel : Nat) (d : DecodeState) (acc : List DictionaryElement) :
    Option (DecodeState × List DictionaryElement) :=
  match fuel with
  | 0 => none
  | fuel + 1 =>
      if d.opcode = scanEndBlock then some (d, acc)
      else
        let d := d.scanWhile scanSkipSpace
        let start := d.readIndex
        let d := d.scanWhile scanContinue
        let key := sliceData d.data start d.readIndex
        let d := d.scanWhile scanSkipSpace
        if d.opcode ≠ scanDictionaryKey then
          let start := d.readIndex
          let d := d.scanWhile scanContinue
          let value := sliceData d.data start d.readIndex
          dictLoop fuel d.scanNext (acc ++ [⟨key, value⟩])
        else
          dictLoop fuel d.scanNext (acc ++ [⟨key, []⟩])

/-- The array-body loop of `block`. -/
def arrayLoop (fuel : Nat) (d : DecodeState) (acc : List (List Nat)) :
    Option (DecodeState × List (List Nat)) :=
  match fuel with
  | 0 => none
  | fuel + 1 =>
      if d.opcode = scanEndArray then some (d, acc)
      else
        let d := d.scanWhile scanSkipSpace
        let start := d.readIndex
        let d := d.scanWhile scanContinue
        let value := sliceData d.data start d.readIndex
        arrayLoop fuel d.scanNext (acc ++ [value])

/-- The text-body loop of `block` (each line is appended plus `"\n"`). -/
def textLoop (fuel : Nat) (d : DecodeState) (acc : List Nat) :
    Option (DecodeState × List Nat) :=
  match fuel with
  | 0 => none
  | fuel + 1 =>
      if d.opcode = scanEndBlock then some (d, acc)
      else
        let start := d.readIndex
        let d := d.scanWhile scanContinue
        let value := sliceData d.data start d.readIndex
        textLoop fuel d.scanNext (acc ++ value ++ [10])

/-- `block`: consume one block.  The final fall-through (`return nil, nil`)
yields `nilBlock`; `dic[:len(dic)-1]` on an empty text body is a runtime
panic. -/
def blockF (fuel : Nat) (d : DecodeState) : Outcome (DecodeState × ContentBlock) :=
  match loopUntilOps fuel [scanBeginTag] d with
  | none => .diverge
  | some d =>
    let start := d.readIndex
    match loopUntilOps fuel [scanEndTag] d with
    | none => .diverge
    | some d =>
      let blockName := sliceData d.data start d.readIndex
      match getBlockForTag blockName with
      | .error msg => .err msg
      | .ok block =>
        let d := d.scanWhile scanSkipSpace
        if d.opcode = scanBeginDictionary then
          match dictLoop fuel d [] with
          | none => .diverge
          | some (d, dic) =>
            match setContent block (.dictC dic) with
            | .ok b => .ok (d, b)
            | .error m => .err m
        else if d.opcode = scanBeginArray then
          match arrayLoop fuel d [] with
          | none => .diverge
          | some (d, dic) =>
            match setContent block (.arrC dic) with
            | .ok b => .ok (d, b)
            | .error m => .err m
        else if d.opcode = scanBeginText then
          match loopUntilOps fuel [scanEndBlock, scanTextLine] d with
          | none => .diverge
          | some d =>
            match textLoop fuel d [] with
            | none => .diverge
            | some (d, dic) =>
              match dic with
              | [] => .panic "runtime error: slice bounds out of range"
              | _ =>
                match setContent block (.strC dic.dropLast) with
                | .ok b => .ok (d, b)
                | .error m => .err m
        else .ok (d, .nilBlock)

/-- The loop of `value`: collect blocks until the scan reports `scanEnd`. -/
def valueLoop (fuel : Nat) (d : DecodeState) (acc : List ContentBlock) :
    Outcome (List ContentBlock) :=
  match fuel with
  | 0 => .diverge
  | fuel + 1 =>
      let d := d.scanWhile scanSkipSpace
      if d.opcode = scanEnd then .ok acc
      else
        match blockF fuel d with
        | .ok (d, b) => valueLoop fuel d.scanNext (acc ++ [b])
        | .err m => .err m
        | .panic m => .panic m
        | .diverge => .diverge

/-- Loop fuel: generously larger than any terminating execution needs
(each loop iteration either consumes at least one input byte or, at EOF,
stabilizes within two iterations). -/
def loopFuel (data : List Nat) : Nat := data.length + 8

/-- `Read`: validate, then decode.  `d.scan` keeps the byte count from the
validation pass (`reset` preserves `bytes`), as in the source. -/
def ReadF (data : List Nat) : Outcome (List ContentBlock) :=
  let r := checkValidAux zeroScanner.reset data
  match r.2 with
  | some e => .err e.msg
  | none =>
      let d : DecodeState := { data := data, off := 0, opcode := 0, scan := r.1.reset }
      valueLoop (loopFuel data) d []

/-! ## Encoder (encode.go) -/

/-- `Encoder` configuration.  `indent` is a Go `int`; it is modeled as a
`Nat` because the field is unexported and never set negative anywhere in
the package (a negative value would panic in `strings.Repeat`). -/
structure Encoder where
  indent : Nat
  lineSep : List Nat
  addTrailingLineEnd : Bool
deriving DecidableEq, Repr

def Encoder.GetIndent (b : Encoder) : Nat := if b.indent ≠ 0 then b.indent else 2

def Encoder.GetEndOffset (b : Encoder) : Nat := if b.addTrailingLineEnd then 1 else 0

def Encoder.GetLineSep (b : Encoder) : List Nat := b.lineSep

/-- `strings.Repeat(" ", n)`. -/
def spaces (n : Nat) : List Nat := List.replicate n 32

/-- The dictionary-content lines: `"%s%s: %s\n"` per pair, every pair but
the last additionally carrying the configured separator. -/
def dictLines (ind sep : List Nat) : List DictionaryElement → List Nat
  | [] => []
  | [v] => ind ++ v.key ++ bstr ": " ++ v.value ++ [10]
  | v :: rest =>
      ind ++ v.key ++ bstr ": " ++ v.value ++ sep ++ [10] ++ dictLines ind sep rest

/-- The array-content lines, same last-element rule. -/
def arrLines (ind sep : List Nat) : List (List Nat) → List Nat
  | [] => []
  | [v] => ind ++ v ++ [10]
  | v :: rest => ind ++ v ++ sep ++ [10] ++ arrLines ind sep rest

/-- The body written by the `switch c := d.(type)` of `marshal`; a dynamic
type other than the three variants writes nothing. -/
def encodeBody (b : Encoder) : ContentBlock → List Nat
  | .dict _ _ content =>
      bstr " \x7b\n" ++ dictLines (spaces b.GetIndent) b.GetLineSep content ++ bstr "\x7d\n\n"
  | .text _ _ content => bstr " \x7b\n" ++ content ++ [10] ++ bstr "\x7d\n\n"
  | .arr _ _ content =>
      bstr " [\n" ++ arrLines (spaces b.GetIndent) b.GetLineSep content ++ bstr "]\n\n"
  | _ => []

/-- `marshal`: write every block (header line, then body).  A nil entry in
the slice panics at the `GetName` call. -/
def marshalBlocks (b : Encoder) : List ContentBlock → Outcome (List Nat)
  | [] => .ok []
  | cb :: rest =>
      match cb.getName, cb.getType with
      | some name, some ty =>
          let header := name ++ (if ty ≠ [] then 58 :: ty else [])
          match marshalBlocks b rest with
          | .ok tail => .ok (header ++ encodeBody b cb ++ tail)
          | e => e
      | _, _ => .panic "runtime error: invalid memory address or nil pointer dereference"

/-- `(b *Encoder) Write`: marshal, then trim one trailing blank line,
adding back a single newline when `addTrailingLineEnd` is set. -/
def Encoder.Write (b : Encoder) (data : List ContentBlock) : Outcome (List Nat) :=
  match marshalBlocks b data with
  | .ok toWrite =>
      let n := toWrite.length
      if 2 < n ∧ toWrite.getD (n - 1) 0 = 10 ∧ toWrite.getD (n - 2) 0 = 10 then
        .ok (toWrite.take (n - 2 + b.GetEndOffset))
      else .ok toWrite
  | e => e

/-- The package-level `Write`, using the default encoder. -/
def WriteDefault (data : List ContentBlock) : Outcome (List Nat) :=
  (Encoder.mk 0 [] false).Write data

/-! ## Definitions supporting the stated properties -/

/-- Whether `Read` returned a block sequence with a nil error. -/
def isOkRead : Outcome (List ContentBlock) → Bool
  | .ok _ => true
  | _ => false

/-- Encode with `cfg`, then decode the bytes and compare with the original
sequence (false also if encoding itself fails). -/
def roundTrips (cfg : Encoder) (S : List ContentBlock) : Bool :=
  match cfg.Write S with
  | .ok enc => decide (ReadF enc = Outcome.ok S)
  | _ => false

/-- Feed a byte sequence to a scanner, step by step. -/
def runScanner (s : Scanner) : List Nat → Scanner
  | [] => s
  | c :: rest => runScanner (stepFn s c).1 rest

/-- The scanner invariant: in error-free states the parse stack holds at
most one entry, and once an error is recorded the scanner is in the error
state. -/
def ScanInv (s : Scanner) : Prop :=
  (s.err = none → s.parseState.length ≤ 1) ∧ (s.err ≠ none → s.step = .errorState)

/-- What one scanner transition must deliver: the invariant again, and a
parse stack of length at most one whenever the opcode is not `scanError`. -/
def StepOK (p : Scanner × Nat) : Prop :=
  ScanInv p.1 ∧ (p.2 ≠ scanError → p.1.parseState.length ≤ 1)

/-- Buffer for C1's counterexample: valid, but its dictionary line is not
indented the way the encoder re-emits it. -/
def c1badBuf : List Nat := bstr "meta \x7b\nurl: x\n\x7d\n"

def c1badBlocks : List ContentBlock :=
  [.dict (bstr "meta") [] [⟨bstr "url", bstr "x"⟩]]

/-- A canonical-layout buffer (encoder-shaped), with trailing newline. -/
def c1canonBufT : List Nat :=
  bstr "meta \x7b\n  url: https://toto.com\n\x7d\n\ntests \x7b\n  ok\n\x7d\n\nvars:secret [\n  key\n]\n"

/-- The same canonical buffer without the trailing newline. -/
def c1canonBufN : List Nat :=
  bstr "meta \x7b\n  url: https://toto.com\n\x7d\n\ntests \x7b\n  ok\n\x7d\n\nvars:secret [\n  key\n]"

def c1canonBlocks : List ContentBlock :=
  [.dict (bstr "meta") [] [⟨bstr "url", bstr "https://toto.com"⟩],
   .text (bstr "tests") [] (bstr "  ok"),
   .arr (bstr "vars") (bstr "secret") [bstr "key"]]

/-- The encoder's own canonical output for an empty dictionary block
(under `addTrailingLineEnd := true`): valid, but decode never terminates
on it, so no round-trip statement can cover it. -/
def emptyDictBuf : List Nat := bstr "meta \x7b\n\x7d\n"

/-- A valid canonical-indent buffer whose dictionary line has an empty
key: it decodes to the key `":"` and therefore re-encodes differently. -/
def colonKeyBuf : List Nat := bstr "meta \x7b\n  : v\n\x7d"

def colonKeyBlocks : List ContentBlock :=
  [.dict (bstr "meta") [] [⟨bstr ":", bstr "v"⟩]]

/-- The single-block `body` input of C2's counterexample. -/
def c2bodyBuf : List Nat := bstr "body \x7b\n  x\n\x7d"

/-- The empty-text-body buffer of C3/C9: validates, then panics in decode. -/
def emptyTextBuf : List Nat := bstr "tests \x7b\n\x7d"

/-- The three-element `vars:secret` input of C4 (also the repo's own
`TestDecodingVarMulti`/`TestVarsWithType` fixture). -/
def c4buf : List Nat :=
  bstr "vars:secret [\n  access_key,\n  access_secret,\n  ~transactionId\n]"

/-- Dictionary line `key:` followed by a newline. -/
def c5goodBuf : List Nat := bstr "meta \x7b\n  key:\n\x7d"

/-- Dictionary line with no colon at all. -/
def c5badBuf : List Nat := bstr "meta \x7b\n  key\n\x7d"

/-- Buffer for C6's counterexample (two dictionary pairs, so that the
inter-entry separator is emitted once). -/
def c6buf : List Nat := bstr "meta \x7b\n  a: x,\n  b: y\n\x7d"

def c6S : List ContentBlock :=
  [.dict (bstr "meta") [] [⟨bstr "a", bstr "x,"⟩, ⟨bstr "b", bstr "y"⟩]]

def c6cfg : Encoder := ⟨0, bstr "!", false⟩

def c6enc : List Nat := bstr "meta \x7b\n  a: x,!\n  b: y\n\x7d"

def c6Sbad : List ContentBlock :=
  [.dict (bstr "meta") [] [⟨bstr "a", bstr "x,!"⟩, ⟨bstr "b", bstr "y"⟩]]

/-- The truncated buffer of C7 (missing its closing brace). -/
def c7buf : List Nat := bstr "meta \x7b\n  url: https://toto.com\n"

/-- Sample data for the C10 witness: one block of every non-nil kind. -/
def c10data : List ContentBlock :=
  [.dict (bstr "meta") [] [], .foreign (bstr "zzz") (bstr "t"),
   .text (bstr "tests") [] (bstr "x"), .arr (bstr "vars") (bstr "secret") []]

/-! ## Lemmas: the scanner depth invariant -/

theorem StepOK_clean {s1 : Scanner} (op : Nat) (he : s1.err = none)
    (hl : s1.parseState.length ≤ 1) : StepOK (s1, op) :=
  ⟨⟨fun _ => hl, fun h => absurd he h⟩, fun _ => hl⟩

theorem StepOK_mkError (s : Scanner) (c : Nat) (ctx : String) :
    StepOK (s.mkError c ctx) := by
  refine ⟨⟨fun h => ?_, fun _ => rfl⟩, fun h => absurd rfl h⟩
  simp [Scanner.mkError] at h

theorem StepOK_panicState (s : Scanner) : StepOK s.panicState := by
  refine ⟨⟨fun h => ?_, fun _ => rfl⟩, fun h => absurd rfl h⟩
  simp [Scanner.panicState] at h

theorem StepOK_pop {s : Scanner} (op : Nat) (he : s.err = none)
    (hl : s.parseState.length ≤ 1) : StepOK (s.popParseState, op) := by
  refine StepOK_clean op he ?_
  simp only [Scanner.popParseState, List.length_dropLast]
  omega

theorem StepOK_push {s : Scanner} (c p succ : Nat) (he : s.err = none) :
    StepOK (s.pushParseState c p succ) := by
  unfold Scanner.pushParseState
  split_ifs with h
  · exact StepOK_clean succ he h
  · exact StepOK_mkError _ _ _

theorem length_setLast {l : List Nat} {x ps : Nat} (hget : l.getLast? = some ps)
    (hl : l.length ≤ 1) : (l.dropLast ++ [x]).length ≤ 1 := by
  have hne : l ≠ [] := by
    intro h
    rw [h] at hget
    simp at hget
  have : 1 ≤ l.length := List.length_pos.mpr hne
  simp only [List.length_append, List.length_dropLast, List.length_singleton]
  omega

theorem stateEndValue_ok (s : Scanner) (c : Nat) (he : s.err = none)
    (hl : s.parseState.length ≤ 1) : StepOK (stateEndValue s c) := by
  unfold stateEndValue
  cases hget : s.parseState.getLast? with
  | none => exact StepOK_panicState s
  | some ps =>
      dsimp only
      split_ifs <;>
        first
          | exact StepOK_mkError _ _ _
          | exact StepOK_pop _ he hl
          | exact StepOK_clean _ he hl
          | exact StepOK_clean _ he (length_setLast hget hl)

theorem stateInText_ok (s : Scanner) (c : Nat) (he : s.err = none)
    (hl : s.parseState.length ≤ 1) : StepOK (stateInText s c) := by
  unfold stateInText
  split_ifs
  · exact stateEndValue_ok s c he hl
  · exact StepOK_clean _ he hl

theorem stateInKey_ok (s : Scanner) (c : Nat) (he : s.err = none)
    (hl : s.parseState.length ≤ 1) : StepOK (stateInKey s c) := by
  unfold stateInKey
  split_ifs <;>
    first
      | exact stateEndValue_ok s c he hl
      | exact StepOK_mkError _ _ _
      | exact StepOK_clean _ he hl

theorem stateInValue_ok (s : Scanner) (c : Nat) (he : s.err = none)
    (hl : s.parseState.length ≤ 1) : StepOK (stateInValue s c) := by
  unfold stateInValue
  split_ifs <;>
    first
      | exact stateEndValue_ok s c he hl
      | exact StepOK_mkError _ _ _
      | exact StepOK_clean _ he hl

theorem stateBeginDictionaryValue_ok (s : Scanner) (c : Nat) (he : s.err = none)
    (hl : s.parseState.length ≤ 1) : StepOK (stateBeginDictionaryValue s c) := by
  unfold stateBeginDictionaryValue
  split_ifs
  · exact stateEndValue_ok s c he hl
  · exact StepOK_clean _ he hl
  · exact stateInValue_ok _ c he hl

theorem stateNewDictionaryPair_ok (s : Scanner) (c : Nat) (he : s.err = none)
    (hl : s.parseState.length ≤ 1) : StepOK (stateNewDictionaryPair s c) := by
  unfold stateNewDictionaryPair
  split_ifs
  · exact StepOK_clean _ he hl
  · exact StepOK_pop _ he hl
  · exact stateInKey_ok _ c he hl

theorem stateNewArrayValue_ok (s : Scanner) (c : Nat) (he : s.err = none)
    (hl : s.parseState.length ≤ 1) : StepOK (stateNewArrayValue s c) := by
  unfold stateNewArrayValue
  split_ifs
  · exact StepOK_clean _ he hl
  · exact StepOK_pop _ he hl
  · exact stateInValue_ok _ c he hl

theorem stateNewTextLine_ok (s : Scanner) (c : Nat) (he : s.err = none)
    (hl : s.parseState.length ≤ 1) : StepOK (stateNewTextLine s c) := by
  unfold stateNewTextLine
  split_ifs
  · exact StepOK_pop _ he hl
  · exact StepOK_clean _ he hl

theorem stateOpenBlock_ok (s : Scanner) (c : Nat) (he : s.err = none)
    (hl : s.parseState.length ≤ 1) : StepOK (stateOpenBlock s c) := by
  unfold stateOpenBlock
  cases hget : s.parseState.getLast? with
  | none => exact StepOK_panicState s
  | some ps =>
      dsimp only
      split_ifs <;>
        first
          | exact StepOK_mkError _ _ _
          | exact StepOK_clean _ he hl
          | exact stateNewDictionaryPair_ok s c he hl
          | exact stateNewArrayValue_ok s c he hl

theorem stateWaitingForOpenBlock_ok (s : Scanner) (c : Nat) (he : s.err = none)
    (hl : s.parseState.length ≤ 1) : StepOK (stateWaitingForOpenBlock s c) := by
  unfold stateWaitingForOpenBlock
  cases hget : s.parseState.getLast? with
  | none =>
      dsimp only
      split_ifs
      · exact StepOK_clean _ he hl
      · exact StepOK_panicState s
  | some ps =>
      dsimp only
      split_ifs <;>
        first
          | exact StepOK_mkError _ _ _
          | exact StepOK_clean _ he hl

theorem checkTag_ok (s : Scanner) (c : Nat) (he : s.err = none)
    (_hl : s.parseState.length ≤ 1) : StepOK (s.checkTag c) := by
  unfold Scanner.checkTag
  cases hlk : List.lookup s.tagName tagTable with
  | none => exact StepOK_mkError _ _ _
  | some bt =>
      dsimp only
      split_ifs <;>
        first
          | exact StepOK_mkError _ _ _
          | exact StepOK_push _ _ _ he

theorem stateReadingTag_ok (s : Scanner) (c : Nat) (he : s.err = none)
    (hl : s.parseState.length ≤ 1) : StepOK (stateReadingTag s c) := by
  unfold stateReadingTag
  split_ifs
  · exact checkTag_ok s c he hl
  · exact StepOK_clean _ he hl

theorem stateBeginBlockLine_ok (s : Scanner) (c : Nat) (he : s.err = none)
    (hl : s.parseState.length ≤ 1) : StepOK (stateBeginBlockLine s c) := by
  unfold stateBeginBlockLine
  split_ifs <;> exact StepOK_clean _ he hl

theorem stateEsc_ok (s : Scanner) (c : Nat) (he : s.err = none)
    (hl : s.parseState.length ≤ 1) :
    StepOK (stateInStringEsc s c) ∧ StepOK (stateInStringEscU s c) ∧
    StepOK (stateInStringEscU1 s c) ∧ StepOK (stateInStringEscU12 s c) ∧
    StepOK (stateInStringEscU123 s c) := by
  unfold stateInStringEsc stateInStringEscU stateInStringEscU1
    stateInStringEscU12 stateInStringEscU123
  refine ⟨?_, ?_, ?_, ?_, ?_⟩ <;>
    (split_ifs <;>
      first
        | exact StepOK_mkError _ _ _
        | exact StepOK_clean _ he hl)

theorem stepFn_ok (s : Scanner) (c : Nat) (he : s.err = none)
    (hl : s.parseState.length ≤ 1) : StepOK (stepFn s c) := by
  unfold stepFn
  cases s.step
  case beginBlockLine => exact stateBeginBlockLine_ok s c he hl
  case readingTag => exact stateReadingTag_ok s c he hl
  case waitingForOpenBlock => exact stateWaitingForOpenBlock_ok s c he hl
  case openBlock => exact stateOpenBlock_ok s c he hl
  case endValue => exact stateEndValue_ok s c he hl
  case newDictionaryPair => exact stateNewDictionaryPair_ok s c he hl
  case newArrayValue => exact stateNewArrayValue_ok s c he hl
  case newTextLine => exact stateNewTextLine_ok s c he hl
  case inText => exact stateInText_ok s c he hl
  case inKey => exact stateInKey_ok s c he hl
  case beginDictionaryValue => exact stateBeginDictionaryValue_ok s c he hl
  case inValue => exact stateInValue_ok s c he hl
  case inStringEsc => exact (stateEsc_ok s c he hl).1
  case inStringEscU => exact (stateEsc_ok s c he hl).2.1
  case inStringEscU1 => exact (stateEsc_ok s c he hl).2.2.1
  case inStringEscU12 => exact (stateEsc_ok s c he hl).2.2.2.1
  case inStringEscU123 => exact (stateEsc_ok s c he hl).2.2.2.2
  case errorState => exact StepOK_clean _ he hl

theorem stepFn_inv (s : Scanner) (c : Nat) (h : ScanInv s) :
    ScanInv (stepFn s c).1 ∧
    ((stepFn s c).2 ≠ scanError → (stepFn s c).1.parseState.length ≤ 1) := by
  by_cases he : s.err = none
  · exact stepFn_ok s c he (h.1 he)
  · have hstep := h.2 he
    have hfe : stepFn s c = (s, scanError) := by
      simp only [stepFn, hstep, stateErrorFn]
    rw [hfe]
    exact ⟨h, fun hop => absurd rfl hop⟩

theorem runScanner_inv (bs : List Nat) (s : Scanner) (h : ScanInv s) :
    ScanInv (runScanner s bs) := by
  induction bs generalizing s with
  | nil => exact h
  | cons c rest ih => exact ih _ (stepFn_inv s c h).1

theorem pushParseState_overflow (s : Scanner) (c p succ : Nat)
    (h : 1 ≤ s.parseState.length) :
    (s.pushParseState c p succ).2 = scanError ∧
    (s.pushParseState c p succ).1.err =
      some ⟨"invalid character " ++ quoteChar c ++ " " ++ "exceeded max depth",
            s.bytes⟩ := by
  unfold Scanner.pushParseState
  have hlen : ¬ (s.parseState ++ [p]).length ≤ maxNestingDepth := by
    simp only [List.length_append, List.length_singleton, maxNestingDepth]
    omega
  rw [if_neg hlen]
  exact ⟨rfl, rfl⟩

/-- Characterization of `eof` on an in-flight scanner: the synthetic space
byte is fed, and the scan succeeds exactly when it leaves the scanner with
`endBlock` set. -/
theorem eof_scanEnd_iff (s : Scanner) (h1 : s.err = none) (h2 : s.endBlock = false) :
    s.eof.2 = scanEnd ↔ (stepFn s 32).1.endBlock = true := by
  unfold Scanner.eof
  rw [h1, h2]
  by_cases hb : (stepFn s 32).1.endBlock = true
  · rw [if_pos hb]
    simp [hb]
  · rw [if_neg hb]
    by_cases he2 : (stepFn s 32).1.err.isSome = true
    · rw [if_pos he2]
      simp only [scanEnd, scanError]
      simp [hb]
    · rw [if_neg he2]
      simp only [scanEnd, scanError]
      simp [hb]

/-- Never-failing marshal: on sequences without nil interface entries,
`marshal` produces bytes (and, as in the source, no error). -/
theorem marshalBlocks_ok (b : Encoder) (data : List ContentBlock)
    (h : ∀ blk ∈ data, blk ≠ ContentBlock.nilBlock) :
    ∃ l, marshalBlocks b data = .ok l := by
  induction data with
  | nil => exact ⟨[], rfl⟩
  | cons cb rest ih =>
      obtain ⟨l, hl⟩ := ih (fun blk hm => h blk (List.mem_cons_of_mem _ hm))
      have hcb := h cb (List.mem_cons_self _ _)
      cases cb
      case nilBlock => exact absurd rfl hcb
      all_goals
        exact ⟨_, by
          simp only [marshalBlocks, ContentBlock.getName, ContentBlock.getType, hl]
          rfl⟩

/-! ## The claims -/

/-- Claim C1, counterexample.  The buffer `"meta \x7b\nurl: x\n\x7d\n"` is
valid and ends with a trailing newline, and the encoder configured with the
matching `addTrailingLineEnd := true` re-emits the decoded sequence with a
two-space indent, so the bytes differ from the original buffer: byte-exact
round-tripping does not hold for every valid buffer and matching
trailing-newline configuration. -/
theorem claim_C1_counterexample :
    checkValid c1badBuf zeroScanner = none ∧
    ReadF c1badBuf = Outcome.ok c1badBlocks ∧
    (Encoder.mk 0 [] true).Write c1badBlocks =
      Outcome.ok (bstr "meta \x7b\n  url: x\n\x7d\n") ∧
    bstr "meta \x7b\n  url: x\n\x7d\n" ≠ c1badBuf := by decide

/-- Claim C1, amended.  Byte-exact round-tripping with the matching
trailing-newline configuration is verified for a representative
canonical-layout buffer holding all three block variants, in both the
trailing-newline and the no-trailing-newline convention — and it cannot be
extended to every canonical-layout valid buffer: the encoder's own output
for an empty dictionary (`"meta \x7b\n\x7d\n"`) validates but decode does
not terminate on it (the dictionary loop's break never observes the
end-of-block opcode), and the valid canonical-indent buffer with an empty
key decodes to the key `":"` and re-encodes as `"  :: v"`. -/
theorem claim_C1_amended :
    (checkValid c1canonBufT zeroScanner = none ∧
      ReadF c1canonBufT = Outcome.ok c1canonBlocks ∧
      (Encoder.mk 0 [] true).Write c1canonBlocks = Outcome.ok c1canonBufT) ∧
    (checkValid c1canonBufN zeroScanner = none ∧
      ReadF c1canonBufN = Outcome.ok c1canonBlocks ∧
      (Encoder.mk 0 [] false).Write c1canonBlocks = Outcome.ok c1canonBufN) ∧
    (checkValid emptyDictBuf zeroScanner = none ∧
      (Encoder.mk 0 [] true).Write [ContentBlock.dict (bstr "meta") [] []] =
        Outcome.ok emptyDictBuf ∧
      ReadF emptyDictBuf = Outcome.diverge) ∧
    (checkValid colonKeyBuf zeroScanner = none ∧
      ReadF colonKeyBuf = Outcome.ok colonKeyBlocks ∧
      (Encoder.mk 0 [] false).Write colonKeyBlocks =
        Outcome.ok (bstr "meta \x7b\n  :: v\n\x7d") ∧
      bstr "meta \x7b\n  :: v\n\x7d" ≠ colonKeyBuf) := by decide

/-- Claim C2, counterexample.  The tag `body` is mapped to the text
variant by the source tag table, not to the dictionary variant: decoding a
single `body` block yields a `TextBlock`. -/
theorem claim_C2_counterexample :
    ReadF c2bodyBuf = Outcome.ok [ContentBlock.text (bstr "body") [] (bstr "  x")] ∧
    variantOf (ContentBlock.text (bstr "body") [] (bstr "  x")) ≠ dictionaryBlock := by
  decide

/-- Claim C2, amended.  The static tag table maps meta, get, post, put,
delete, options, trace, connect, head, query, headers,
body:form-urlencoded, body:multipart-form, assert and vars to the
dictionary variant; vars:secret to the array variant; and body, tests,
body:text, body:xml, body:graphql, body:graphql:vars, script:pre-request,
script:post-response, body:test and body:json to the text variant — and a
single-block input with such a tag decodes to that variant (samples for
each variant included). -/
theorem claim_C2_amended :
    getBlockForTag (bstr "meta") = .ok (.dict (bstr "meta") [] []) ∧
    getBlockForTag (bstr "get") = .ok (.dict (bstr "get") [] []) ∧
    getBlockForTag (bstr "post") = .ok (.dict (bstr "post") [] []) ∧
    getBlockForTag (bstr "put") = .ok (.dict (bstr "put") [] []) ∧
    getBlockForTag (bstr "delete") = .ok (.dict (bstr "delete") [] []) ∧
    getBlockForTag (bstr "options") = .ok (.dict (bstr "options") [] []) ∧
    getBlockForTag (bstr "trace") = .ok (.dict (bstr "trace") [] []) ∧
    getBlockForTag (bstr "connect") = .ok (.dict (bstr "connect") [] []) ∧
    getBlockForTag (bstr "head") = .ok (.dict (bstr "head") [] []) ∧
    getBlockForTag (bstr "query") = .ok (.dict (bstr "query") [] []) ∧
    getBlockForTag (bstr "headers") = .ok (.dict (bstr "headers") [] []) ∧
    getBlockForTag (bstr "body:form-urlencoded") =
      .ok (.dict (bstr "body") (bstr "form-urlencoded") []) ∧
    getBlockForTag (bstr "body:multipart-form") =
      .ok (.dict (bstr "body") (bstr "multipart-form") []) ∧
    getBlockForTag (bstr "assert") = .ok (.dict (bstr "assert") [] []) ∧
    getBlockForTag (bstr "vars") = .ok (.dict (bstr "vars") [] []) ∧
    getBlockForTag (bstr "vars:secret") = .ok (.arr (bstr "vars") (bstr "secret") []) ∧
    getBlockForTag (bstr "body") = .ok (.text (bstr "body") [] []) ∧
    getBlockForTag (bstr "tests") = .ok (.text (bstr "tests") [] []) ∧
    getBlockForTag (bstr "body:text") = .ok (.text (bstr "body") (bstr "text") []) ∧
    getBlockForTag (bstr "body:xml") = .ok (.text (bstr "body") (bstr "xml") []) ∧
    getBlockForTag (bstr "body:graphql") =
      .ok (.text (bstr "body") (bstr "graphql") []) ∧
    getBlockForTag (bstr "body:graphql:vars") =
      .ok (.text (bstr "body") (bstr "graphql:vars") []) ∧
    getBlockForTag (bstr "script:pre-request") =
      .ok (.text (bstr "script") (bstr "pre-request") []) ∧
    getBlockForTag (bstr "script:post-response") =
      .ok (.text (bstr "script") (bstr "post-response") []) ∧
    getBlockForTag (bstr "body:test") = .ok (.text (bstr "body") (bstr "test") []) ∧
    getBlockForTag (bstr "body:json") = .ok (.text (bstr "body") (bstr "json") []) ∧
    ReadF (bstr "get \x7b\n  a: b\n\x7d") =
      Outcome.ok [.dict (bstr "get") [] [⟨bstr "a", bstr "b"⟩]] ∧
    ReadF (bstr "body:graphql \x7b\n  q\n\x7d") =
      Outcome.ok [.text (bstr "body") (bstr "graphql") (bstr "  q")] ∧
    ReadF (bstr "vars:secret [\n  k\n]") =
      Outcome.ok [.arr (bstr "vars") (bstr "secret") [bstr "k"]] := by decide

/-- Claim C3: the equivalence fails.  `checkValid` accepts the buffer
`"tests \x7b\n\x7d"` (a text block with an empty body), yet `Read` on the
same buffer does not return a block sequence with a nil error — its
text-block branch evaluates `dic[:len(dic)-1]` with `dic` empty, a runtime
panic. -/
theorem claim_C3_eval :
    checkValid emptyTextBuf zeroScanner = none ∧
    isOkRead (ReadF emptyTextBuf) = false := by decide

/-- Claim C4: the code rejects the three-element `vars:secret` input that
its own tests (`TestVarsWithType`, `TestDecodingVarMulti`) require to
succeed.  `stateInValue` treats `,` as an ordinary value byte, so the
element terminator is the newline, after which the next element's first
letter arrives in `stateEndValue` and is rejected with "after array
element" at offset 31. -/
theorem claim_C4_eval :
    checkValid c4buf zeroScanner =
      some ⟨"invalid character " ++ quoteChar 97 ++ " " ++ "after array element", 31⟩ ∧
    ReadF c4buf =
      Outcome.err ("invalid character " ++ quoteChar 97 ++ " " ++ "after array element") ∧
    ReadF c4buf ≠ Outcome.ok [ContentBlock.arr (bstr "vars") (bstr "secret")
      [bstr "access_key", bstr "access_secret", bstr "~transactionId"]] := by decide

/-- Claim C5, counterexample.  A dictionary body line with no colon at all
is a syntax error ("in key", at the newline that ends the line), not an
empty-value entry: `stateInKey` rejects any byte below 0x20. -/
theorem claim_C5_counterexample :
    checkValid c5badBuf zeroScanner =
      some ⟨"invalid character " ++ quoteChar 10 ++ " " ++ "in key", 13⟩ ∧
    isOkRead (ReadF c5badBuf) = false := by decide

/-- Claim C5, amended.  A dictionary body line `key:` immediately followed
by a newline decodes to the pair {Key: "key", Value: ""}; a line with no
colon at all is instead a syntax error. -/
theorem claim_C5_amended :
    ReadF c5goodBuf =
      Outcome.ok [ContentBlock.dict (bstr "meta") [] [⟨bstr "key", []⟩]] ∧
    checkValid c5badBuf zeroScanner ≠ none := by decide

/-- Claim C6, counterexample.  With the non-empty separator `"!"` the
encoder appends the separator to every entry but the last, and decoding
the encoded bytes folds the separator into that entry's value: the
round-trip fails for this configuration. -/
theorem claim_C6_counterexample :
    ReadF c6buf = Outcome.ok c6S ∧
    c6cfg.Write c6S = Outcome.ok c6enc ∧
    ReadF c6enc = Outcome.ok c6Sbad ∧
    c6Sbad ≠ c6S := by decide

/-- Claim C6, amended.  For configurations whose `lineSep` is empty the
structural round-trip `decode(encode(S, cfg)) = S` holds — here for a
decoded sequence containing all three block variants, across indents 0
(treated as the default 2), 2 and 5, and both trailing-newline settings. -/
theorem claim_C6_amended :
    ∀ (t : Bool) (i : Fin 3),
      roundTrips (Encoder.mk (([0, 2, 5] : List Nat).get i) [] t) c1canonBlocks
        = true := by decide

/-- Claim C7.  Decoding the brace-less buffer fails with "unexpected end
of Bru input" at offset = length of the input; and in general, when input
is exhausted with no error and no completed top-level block, `eof` feeds
one synthetic space byte and the scan succeeds exactly when that byte
leaves the scanner with its end-of-block flag set. -/
theorem claim_C7 :
    checkValid c7buf zeroScanner =
      some ⟨"unexpected end of Bru input", c7buf.length⟩ ∧
    ∀ s : Scanner, s.err = none → s.endBlock = false →
      (s.eof.2 = scanEnd ↔ (stepFn s 32).1.endBlock = true) := by
  exact ⟨by decide, eof_scanEnd_iff⟩

/-- Claim C7, witness: the general part applied to the freshly reset
scanner (for which the fed space leaves `endBlock` unset and `eof`
reports an error). -/
theorem claim_C7_witness :
    (zeroScanner.eof.2 = scanEnd ↔ (stepFn zeroScanner 32).1.endBlock = true) :=
  claim_C7.2 zeroScanner rfl rfl

/-- Claim C8.  Feeding any byte sequence to a freshly reset scanner,
every step that returns an opcode other than `scanError` leaves the parse
stack with at most one entry; and pushing onto a stack that already holds
an entry returns `scanError` and records the "exceeded max depth" error. -/
theorem claim_C8 :
    (∀ (bs : List Nat) (c : Nat),
        (stepFn (runScanner zeroScanner bs) c).2 ≠ scanError →
        (stepFn (runScanner zeroScanner bs) c).1.parseState.length ≤ 1) ∧
    ∀ (s : Scanner) (c p succ : Nat), 1 ≤ s.parseState.length →
        (s.pushParseState c p succ).2 = scanError ∧
        (s.pushParseState c p succ).1.err =
          some ⟨"invalid character " ++ quoteChar c ++ " " ++ "exceeded max depth",
                s.bytes⟩ := by
  refine ⟨fun bs c hop => ?_, pushParseState_overflow⟩
  have hinv : ScanInv (runScanner zeroScanner bs) :=
    runScanner_inv bs zeroScanner ⟨fun _ => by decide, fun h => absurd rfl h⟩
  exact (stepFn_inv _ c hinv).2 hop

/-- Claim C8, witness: after scanning `"meta "` the stack holds one entry;
stepping `\x7b` succeeds and keeps the stack within the bound, while a
push on the same stack is the depth error. -/
theorem claim_C8_witness :
    (stepFn (runScanner zeroScanner (bstr "meta ")) 123).1.parseState.length ≤ 1 ∧
    ((Scanner.mk .openBlock false [parseDictionaryKey] none 0 []).pushParseState
        97 parseDictionaryKey scanEndTag).2 = scanError :=
  ⟨claim_C8.1 (bstr "meta ") 123 (by decide),
   (claim_C8.2 (Scanner.mk .openBlock false [parseDictionaryKey] none 0 [])
      97 parseDictionaryKey scanEndTag (by decide)).1⟩

/-- Claim C9.  The buffer `"tests \x7b\n\x7d"` validates, yet `Read`
reaches the text-block branch with an empty accumulated body and the
slice `dic[:len(dic)-1]` is a runtime panic, not a returned error. -/
theorem claim_C9 :
    checkValid emptyTextBuf zeroScanner = none ∧
    ReadF emptyTextBuf = Outcome.panic "runtime error: slice bounds out of range" := by
  decide

/-- Claim C10.  For every block sequence without nil interface entries and
every configuration, `Encoder.Write` and the package-level `Write` return
bytes with a nil error: the error return is unreachable. -/
theorem claim_C10 (data : List ContentBlock) (b : Encoder)
    (h : ∀ blk ∈ data, blk ≠ ContentBlock.nilBlock) :
    (∃ bytes, b.Write data = Outcome.ok bytes) ∧
    ∃ bytes, WriteDefault data = Outcome.ok bytes := by
  have key : ∀ b2 : Encoder, ∃ bytes, b2.Write data = Outcome.ok bytes := by
    intro b2
    obtain ⟨l, hl⟩ := marshalBlocks_ok b2 data h
    unfold Encoder.Write
    rw [hl]
    dsimp only
    split_ifs
    · exact ⟨_, rfl⟩
    · exact ⟨_, rfl⟩
  refine ⟨key b, ?_⟩
  unfold WriteDefault
  exact key _

/-- Claim C10, witness: applied to one block of every non-nil kind and a
non-default configuration. -/
theorem claim_C10_witness :
    (∃ bytes, (Encoder.mk 3 (bstr ";") true).Write c10data = Outcome.ok bytes) ∧
    ∃ bytes, WriteDefault c10data = Outcome.ok bytes :=
  claim_C10 c10data (Encoder.mk 3 (bstr ";") true) (by decide)

end GoBru
